import Mathlib

/-!
Verification of the ThalAI Guardian availability-prediction service
(`thalai-ai-service/app.py`): the recency calculator, feature extraction,
heuristic fallback scorer, model/fallback arbitration and the HTTP
response fields, embedded shallowly in Lean.

Python floats are modelled as exact rationals (`ℚ`); Python exceptions
are modelled with `Except Unit`: a value `Except.error ()` at a point of
the embedding corresponds to an exception escaping the corresponding
point of the Python code.
-/

namespace ThalAI

/-- The input to `calculate_days_since_last_donation`, abstracting the
Python value and `datetime` parsing: `absent` when the argument is falsy
(`None`, empty string, ...), `parseFail` when parsing or the date
arithmetic raises, and `parsed d` when it succeeds and the difference
between `datetime.now()` and the parsed date is `d` whole days
(negative for a date in the future). -/
inductive LastDonationInput where
  | absent : LastDonationInput
  | parseFail : LastDonationInput
  | parsed : Int → LastDonationInput
deriving DecidableEq

/-- `calculate_days_since_last_donation` (app.py lines 44-58):
returns 365 for an absent value, `max 0 days` for a parsed date, and
365 when the `try` body raises. -/
def calculate_days_since_last_donation : LastDonationInput → Int
  | .absent => 365
  | .parseFail => 365
  | .parsed d => max 0 d

/-- The donor record after the defaulting done by `donor_data.get`
(age defaults to 30, donationFrequency to 0, region to "unknown",
healthFlags to the empty list); `healthFlags` keeps only the markers,
since the code uses only their count. -/
structure DonorRecord where
  age : Int
  donationFrequency : Int
  lastDonationDate : LastDonationInput
  region : String
  healthFlags : List Unit
deriving DecidableEq

/-- The `region_map` dictionary of `predict_availability`
(app.py lines 81-88). -/
def region_map : List (String × ℚ) :=
  [("north", 0.2), ("south", 0.3), ("east", 0.25), ("west", 0.25),
   ("central", 0.3), ("unknown", 0.2)]

/-- Python's `str.lower()`: lower-case every character of the string. -/
def str_lower (s : String) : String := String.mk (s.data.map Char.toLower)

/-- `region_map.get(region.lower(), 0.2)` (app.py line 89). -/
def region_factor (region : String) : ℚ :=
  (region_map.lookup (str_lower region)).getD 0.2

/-- The donation-rate derived feature,
`donation_frequency / max(age - 18, 1)` (app.py line 102). -/
def donation_rate (age donation_frequency : Int) : ℚ :=
  (donation_frequency : ℚ) / ((max (age - 18) 1 : Int) : ℚ)

/-- The recency-score derived feature,
`max(0, 90 - days_since) / 90` (app.py line 103). -/
def recency_score (days_since : Int) : ℚ :=
  ((max 0 (90 - days_since) : Int) : ℚ) / 90

/-- The feature vector built in `predict_availability`
(app.py lines 95-104), in source order. -/
def extract_features (d : DonorRecord) (days_since : Int) : List ℚ :=
  [ (d.age : ℚ),
    (d.donationFrequency : ℚ),
    (days_since : ℚ),
    region_factor d.region,
    (d.healthFlags.length : ℚ),
    (d.donationFrequency : ℚ) / ((max (d.age - 18) 1 : Int) : ℚ),
    ((max 0 (90 - days_since) : Int) : ℚ) / 90 ]

/-- The running sum built by `calculate_fallback_score` before its final
clamp (app.py lines 125-153): base 50, then the three `score += ...`
if/elif chains, with the conditions written as in the source. -/
def calculate_fallback_score_raw (age donation_frequency days_since : Int) : Int :=
  50 +
  (if 25 ≤ age ∧ age ≤ 45 then 15
   else if (18 ≤ age ∧ age < 25) ∨ (45 < age ∧ age ≤ 60) then 10
   else 5) +
  (if donation_frequency ≥ 10 then 20
   else if donation_frequency ≥ 5 then 15
   else if donation_frequency ≥ 2 then 10
   else if donation_frequency ≥ 1 then 5
   else 0) +
  (if 56 ≤ days_since ∧ days_since ≤ 90 then 15
   else if 30 ≤ days_since ∧ days_since < 56 then 10
   else if 90 < days_since ∧ days_since ≤ 180 then 5
   else if days_since > 180 then -5
   else 0)

/-- `calculate_fallback_score` (app.py lines 123-155): the running sum of
the band adjustments, clamped by `max(0, min(100, score))` (line 155). -/
def calculate_fallback_score (age donation_frequency days_since : Int) : Int :=
  max 0 (min 100 (calculate_fallback_score_raw age donation_frequency days_since))

/-- The age band table of §4.3 of the spec: 25-45 → +15,
18-24 or 46-60 → +10, otherwise +5. -/
def age_adjustment (age : Int) : Int :=
  if 25 ≤ age ∧ age ≤ 45 then 15
  else if (18 ≤ age ∧ age ≤ 24) ∨ (46 ≤ age ∧ age ≤ 60) then 10
  else 5

/-- The donation-frequency band table of §4.3 of the spec:
≥10 → +20, 5-9 → +15, 2-4 → +10, 1 → +5, 0 → +0. -/
def frequency_adjustment (donation_frequency : Int) : Int :=
  if 10 ≤ donation_frequency then 20
  else if 5 ≤ donation_frequency ∧ donation_frequency ≤ 9 then 15
  else if 2 ≤ donation_frequency ∧ donation_frequency ≤ 4 then 10
  else if donation_frequency = 1 then 5
  else 0

/-- The recency band table of §4.3 of the spec:
56-90 → +15, 30-55 → +10, 91-180 → +5, >180 → −5, <30 → +0. -/
def recency_adjustment (days_since : Int) : Int :=
  if 56 ≤ days_since ∧ days_since ≤ 90 then 15
  else if 30 ≤ days_since ∧ days_since ≤ 55 then 10
  else if 91 ≤ days_since ∧ days_since ≤ 180 then 5
  else if 180 < days_since then -5
  else 0

/-- The external scaler artifact, an opaque capability whose `transform`
may raise (modelled by `Except.error ()`). -/
structure Scaler where
  transform : List ℚ → Except Unit (List ℚ)

/-- The external model artifact: `predict` stands for the whole
expression `model.predict(features)[0]` (app.py line 113), which may
raise at any stage (modelled by `Except.error ()`). -/
structure Model where
  predict : List ℚ → Except Unit ℚ

/-- `features = scaler.transform(features) if scaler else features`
(app.py lines 107-108); this statement is NOT inside any `try` of
`predict_availability`, so a transform failure propagates. -/
def apply_scaler : Option Scaler → List ℚ → Except Unit (List ℚ)
  | some sc, features => sc.transform features
  | none, features => Except.ok features

/-- The score selection of `predict_availability` (app.py lines 110-119):
if a model is loaded, try `model.predict` and clamp `prediction * 100` to
[0, 100]; on any exception from the `try` body, or with no model, use
`calculate_fallback_score`. -/
def choose_score (model : Option Model) (features : List ℚ)
    (age donation_frequency days_since : Int) : ℚ :=
  match model with
  | some m =>
    match m.predict features with
    | .ok prediction => max 0 (min 100 (prediction * 100))
    | .error _ =>
      ((calculate_fallback_score age donation_frequency days_since : Int) : ℚ)
  | none => ((calculate_fallback_score age donation_frequency days_since : Int) : ℚ)

/-- Python's `round(x, 2)` on an exact rational: round `100 * x` to the
nearest integer and divide back by 100. -/
def round2 (q : ℚ) : ℚ := ((round (q * 100) : Int) : ℚ) / 100

/-- `predict_availability` (app.py lines 60-121) over a donor record on
which the `.get` defaults have already been applied. The `Except Unit`
result is `.error ()` exactly when an exception escapes the function
(which happens only if the scaler's `transform` raises, since that call
sits outside the `try`). -/
def predict_availability (model : Option Model) (scaler : Option Scaler)
    (d : DonorRecord) : Except Unit ℚ :=
  match apply_scaler scaler (extract_features d
    (calculate_days_since_last_donation d.lastDonationDate)) with
  | .error e => .error e
  | .ok features =>
    .ok (round2 (choose_score model features d.age d.donationFrequency
      (calculate_days_since_last_donation d.lastDonationDate)))

/-- The JSON body returned by the `/predict-availability` endpoint on
success (app.py lines 189-195), without the echoed `donorId`. -/
structure PredictResponse where
  success : Bool
  availabilityScore : ℚ
  confidence : ℚ
  model_used : String
deriving DecidableEq

/-- The `predict` endpoint (app.py lines 166-201) after JSON extraction:
scores the donor record and fills `confidence` and `model_used` from
whether a model object is loaded (`0.85 if model else 0.70`,
`'trained' if model else 'fallback'`). `.error ()` stands for the
catch-all 500 response of the endpoint. -/
def predict_endpoint (model : Option Model) (scaler : Option Scaler)
    (d : DonorRecord) : Except Unit PredictResponse :=
  match predict_availability model scaler d with
  | .error e => .error e
  | .ok availability_score =>
    .ok { success := true,
          availabilityScore := availability_score,
          confidence := if model.isSome then 0.85 else 0.70,
          model_used := if model.isSome then "trained" else "fallback" }

/-! ## Sample inputs and helper lemmas -/

/-- The end-to-end test record of §8 of the spec: age 30, five donations,
last donation 75 days ago, region "south", no health flags. -/
def sampleDonor : DonorRecord :=
  { age := 30, donationFrequency := 5, lastDonationDate := .parsed 75,
    region := "south", healthFlags := [] }

/-- A model artifact whose `predict` always raises. -/
def failingModel : Model := ⟨fun _ => Except.error ()⟩

/-- A scaler artifact whose `transform` always raises. -/
def failingScaler : Scaler := ⟨fun _ => Except.error ()⟩

/-- A model artifact whose `predict` always returns 0.5. -/
def constModel : Model := ⟨fun _ => Except.ok 0.5⟩

theorem round2_intCast (n : Int) : round2 (n : ℚ) = (n : ℚ) := by
  have h : ((n : ℚ) * 100) = ((n * 100 : Int) : ℚ) := by push_cast; ring
  rw [round2, h, round_intCast]
  push_cast
  ring

theorem round2_nonneg {q : ℚ} (hq : 0 ≤ q) : 0 ≤ round2 q := by
  rw [round2]
  have h0 : (0 : Int) ≤ round (q * 100) := by
    rw [round_eq]
    have : (0 : ℚ) ≤ q * 100 + 1 / 2 := by nlinarith
    exact Int.le_floor.mpr (by exact_mod_cast this)
  positivity

theorem round2_le_hundred {q : ℚ} (hq : q ≤ 100) : round2 q ≤ 100 := by
  rw [round2]
  have h0 : round (q * 100) ≤ 10000 := by
    rw [round_eq]
    have h1 : q * 100 + 1 / 2 < ((10001 : Int) : ℚ) := by push_cast; nlinarith
    have := Int.floor_lt.mpr h1
    omega
  rw [div_le_iff₀ (by norm_num : (0 : ℚ) < 100)]
  calc ((round (q * 100) : Int) : ℚ) ≤ ((10000 : Int) : ℚ) := by exact_mod_cast h0
    _ = 100 * 100 := by norm_num

theorem fallback_raw_bounds (age donation_frequency days_since : Int) :
    50 ≤ calculate_fallback_score_raw age donation_frequency days_since ∧
    calculate_fallback_score_raw age donation_frequency days_since ≤ 100 := by
  unfold calculate_fallback_score_raw
  split_ifs <;> omega

theorem fallback_eq_raw (age donation_frequency days_since : Int) :
    calculate_fallback_score age donation_frequency days_since =
      calculate_fallback_score_raw age donation_frequency days_since := by
  have h := fallback_raw_bounds age donation_frequency days_since
  unfold calculate_fallback_score
  omega

theorem fallback_bounds (age donation_frequency days_since : Int) :
    0 ≤ calculate_fallback_score age donation_frequency days_since ∧
    calculate_fallback_score age donation_frequency days_since ≤ 100 := by
  have h := fallback_raw_bounds age donation_frequency days_since
  unfold calculate_fallback_score
  omega

theorem choose_score_bounds (model : Option Model) (features : List ℚ)
    (age donation_frequency days_since : Int) :
    0 ≤ choose_score model features age donation_frequency days_since ∧
    choose_score model features age donation_frequency days_since ≤ 100 := by
  have hf := fallback_bounds age donation_frequency days_since
  have hfq : (0 : ℚ) ≤ ((calculate_fallback_score age donation_frequency days_since : Int) : ℚ) ∧
      ((calculate_fallback_score age donation_frequency days_since : Int) : ℚ) ≤ 100 :=
    ⟨by exact_mod_cast hf.1, by exact_mod_cast hf.2⟩
  rcases model with _ | m
  · simpa only [choose_score] using hfq
  · cases hp : m.predict features with
    | error e =>
      simp only [choose_score, hp]
      exact hfq
    | ok p =>
      simp only [choose_score, hp]
      exact ⟨le_max_left _ _, max_le (by norm_num) (min_le_left _ _)⟩

theorem choose_score_some_error (m : Model) (features : List ℚ)
    (age donation_frequency days_since : Int)
    (hm : m.predict features = Except.error ()) :
    choose_score (some m) features age donation_frequency days_since =
      ((calculate_fallback_score age donation_frequency days_since : Int) : ℚ) := by
  have hred : choose_score (some m) features age donation_frequency days_since =
      (match m.predict features with
       | Except.ok prediction => max 0 (min 100 (prediction * 100))
       | Except.error _ =>
         ((calculate_fallback_score age donation_frequency days_since : Int) : ℚ)) := rfl
  rw [hred, hm]

theorem predict_availability_no_model (scaler : Option Scaler) (d : DonorRecord)
    (features : List ℚ)
    (hsc : apply_scaler scaler (extract_features d
      (calculate_days_since_last_donation d.lastDonationDate)) = Except.ok features) :
    predict_availability none scaler d =
      Except.ok (round2 ((calculate_fallback_score d.age d.donationFrequency
        (calculate_days_since_last_donation d.lastDonationDate) : Int) : ℚ)) := by
  unfold predict_availability
  rw [hsc]
  rfl

theorem raw_band_decomposition (age donation_frequency days_since : Int) :
    calculate_fallback_score_raw age donation_frequency days_since =
      50 + age_adjustment age + frequency_adjustment donation_frequency +
        recency_adjustment days_since := by
  unfold calculate_fallback_score_raw
  have h1 : (if 25 ≤ age ∧ age ≤ 45 then (15 : Int)
      else if (18 ≤ age ∧ age < 25) ∨ (45 < age ∧ age ≤ 60) then 10
      else 5) = age_adjustment age := by
    unfold age_adjustment
    split_ifs <;> omega
  have h2 : (if donation_frequency ≥ 10 then (20 : Int)
      else if donation_frequency ≥ 5 then 15
      else if donation_frequency ≥ 2 then 10
      else if donation_frequency ≥ 1 then 5
      else 0) = frequency_adjustment donation_frequency := by
    unfold frequency_adjustment
    split_ifs <;> omega
  have h3 : (if 56 ≤ days_since ∧ days_since ≤ 90 then (15 : Int)
      else if 30 ≤ days_since ∧ days_since < 56 then 10
      else if 90 < days_since ∧ days_since ≤ 180 then 5
      else if days_since > 180 then -5
      else 0) = recency_adjustment days_since := by
    unfold recency_adjustment
    split_ifs <;> omega
  rw [h1, h2, h3]

/-! ## Claim theorems -/

/-- C3: for every donor record and day count, the derived feature vector
is exactly 7-dimensional and lists, in this fixed order, age,
donationFrequency, daysSinceLastDonation, regionFactor, healthFlagsCount,
donationRate and recencyScore. -/
theorem feature_vector_seven_fixed_order (d : DonorRecord) (days_since : Int) :
    (extract_features d days_since).length = 7 ∧
    extract_features d days_since =
      [(d.age : ℚ), (d.donationFrequency : ℚ), (days_since : ℚ),
       region_factor d.region, (d.healthFlags.length : ℚ),
       donation_rate d.age d.donationFrequency, recency_score days_since] :=
  ⟨rfl, rfl⟩

/-- C4: the heuristic score is 50 plus exactly one adjustment from each
of the age, frequency and recency band tables, clamped to [0, 100], and
the literal band boundaries take the stated values. -/
theorem fallback_score_bands (age donation_frequency days_since : Int) :
    calculate_fallback_score age donation_frequency days_since =
      max 0 (min 100 (50 + age_adjustment age +
        frequency_adjustment donation_frequency + recency_adjustment days_since)) ∧
    age_adjustment 25 = 15 ∧ age_adjustment 24 = 10 ∧ age_adjustment 46 = 10 ∧
    age_adjustment 61 = 5 ∧
    frequency_adjustment 10 = 20 ∧ frequency_adjustment 9 = 15 ∧
    frequency_adjustment 1 = 5 ∧ frequency_adjustment 0 = 0 ∧
    recency_adjustment 56 = 15 ∧ recency_adjustment 55 = 10 ∧
    recency_adjustment 181 = -5 :=
  ⟨by rw [calculate_fallback_score, raw_band_decomposition],
   by decide, by decide, by decide, by decide, by decide, by decide,
   by decide, by decide, by decide, by decide, by decide⟩

/-- C5: the recency calculator returns 365 for an absent or null input,
returns 365 without raising for any malformed or unsupported input, and
returns `max 0 wholeDaysElapsed` for every successfully parsed timestamp,
so its result is always an integer ≥ 0. -/
theorem days_since_default_and_nonneg (inp : LastDonationInput) :
    calculate_days_since_last_donation .absent = 365 ∧
    calculate_days_since_last_donation .parseFail = 365 ∧
    (∀ d : Int, calculate_days_since_last_donation (.parsed d) = max 0 d) ∧
    0 ≤ calculate_days_since_last_donation inp := by
  refine ⟨rfl, rfl, fun d => rfl, ?_⟩
  cases inp with
  | absent => norm_num [calculate_days_since_last_donation]
  | parseFail => norm_num [calculate_days_since_last_donation]
  | parsed d =>
    simp only [calculate_days_since_last_donation]
    exact le_max_left 0 d

/-- C10: for non-negative donationFrequency and daysSince the raw
additive heuristic sum already lies in [50, 100], so the final clamp
`max(0, min(100, score))` returns the sum unchanged. -/
theorem fallback_clamp_is_identity (age donation_frequency days_since : Int)
    (hf : 0 ≤ donation_frequency) (hds : 0 ≤ days_since) :
    50 ≤ calculate_fallback_score_raw age donation_frequency days_since ∧
    calculate_fallback_score_raw age donation_frequency days_since ≤ 100 ∧
    calculate_fallback_score age donation_frequency days_since =
      calculate_fallback_score_raw age donation_frequency days_since := by
  have h := fallback_raw_bounds age donation_frequency days_since
  refine ⟨h.1, h.2, ?_⟩
  unfold calculate_fallback_score
  omega

/-- Witness for C10 at age 30, frequency 5, 75 days since last
donation. -/
theorem fallback_clamp_is_identity_witness :
    50 ≤ calculate_fallback_score_raw 30 5 75 ∧
    calculate_fallback_score_raw 30 5 75 ≤ 100 ∧
    calculate_fallback_score 30 5 75 = calculate_fallback_score_raw 30 5 75 :=
  fallback_clamp_is_identity 30 5 75 (by decide) (by decide)

/-- C6: the region factor is the fixed-table value of the lower-cased
region string (north 0.20, south 0.30, east 0.25, west 0.25,
central 0.30, unknown 0.20), so any casing of a known region gives its
table value, and any string missing from the table gives 0.20, the same
value as "unknown". -/
theorem region_factor_matches_table (s : String) :
    (str_lower s = "north" → region_factor s = 0.2) ∧
    (str_lower s = "south" → region_factor s = 0.3) ∧
    (str_lower s = "east" → region_factor s = 0.25) ∧
    (str_lower s = "west" → region_factor s = 0.25) ∧
    (str_lower s = "central" → region_factor s = 0.3) ∧
    (str_lower s = "unknown" → region_factor s = 0.2) ∧
    (region_map.lookup (str_lower s) = none →
      region_factor s = 0.2 ∧ region_factor s = region_factor "unknown") := by
  refine ⟨fun h => ?_, fun h => ?_, fun h => ?_, fun h => ?_, fun h => ?_,
    fun h => ?_, fun h => ?_⟩
  all_goals unfold region_factor
  all_goals rw [h]
  · simp [region_map, List.lookup]
  · simp [region_map, List.lookup]
  · simp [region_map, List.lookup]
  · simp [region_map, List.lookup]
  · simp [region_map, List.lookup]
  · simp [region_map, List.lookup]
  · rw [show str_lower "unknown" = "unknown" from by decide]
    constructor
    · simp
    · simp [region_map, List.lookup]

/-- Witness for C6: a fully upper-cased known region takes its table
value, and an out-of-vocabulary region takes the "unknown" value. -/
theorem region_factor_matches_table_witness :
    region_factor "NORTH" = 0.2 ∧ region_factor "Central" = 0.3 ∧
    (region_factor "Atlantis" = 0.2 ∧
      region_factor "Atlantis" = region_factor "unknown") :=
  ⟨(region_factor_matches_table "NORTH").1 (by decide),
   (region_factor_matches_table "Central").2.2.2.2.1 (by decide),
   (region_factor_matches_table "Atlantis").2.2.2.2.2.2 (by decide)⟩

/-- C7: donationRate is donationFrequency divided by `max(age - 18, 1)`
whose value is at least 1 for every age, and recencyScore is
`max(0, 90 - daysSince) / 90`, equal to 1 at zero days, equal to 0 from
90 days on, and never negative; these are the 6th and 7th feature
entries. -/
theorem derived_feature_formulas (d : DonorRecord) (days_since : Int) :
    donation_rate d.age d.donationFrequency =
      (d.donationFrequency : ℚ) / ((max (d.age - 18) 1 : Int) : ℚ) ∧
    (1 : Int) ≤ max (d.age - 18) 1 ∧
    (extract_features d days_since).getD 5 0 =
      donation_rate d.age d.donationFrequency ∧
    (extract_features d days_since).getD 6 0 = recency_score days_since ∧
    recency_score 0 = 1 ∧
    (90 ≤ days_since → recency_score days_since = 0) ∧
    0 ≤ recency_score days_since := by
  refine ⟨rfl, le_max_right _ _, rfl, rfl, ?_, fun h => ?_, ?_⟩
  · norm_num [recency_score]
  · unfold recency_score
    rw [show max 0 (90 - days_since) = 0 by omega]
    norm_num
  · unfold recency_score
    apply div_nonneg _ (by norm_num)
    exact_mod_cast le_max_left 0 (90 - days_since)

/-- Witness for C7 at the sample donor with 100 days since the last
donation. -/
theorem derived_feature_formulas_witness :
    90 ≤ (100 : Int) ∧ recency_score 100 = 0 :=
  ⟨by norm_num,
   (derived_feature_formulas sampleDonor 100).2.2.2.2.2.1 (by norm_num)⟩

/-- C9: with no model loaded, the sample record (age 30, 5 donations,
last donation 75 days ago, region "south", no health flags) scores
50 + 15 + 15 + 15 = 95 with confidence 0.70 and model label
"fallback". -/
theorem end_to_end_sample_no_model :
    predict_endpoint none none sampleDonor =
      Except.ok { success := true, availabilityScore := 95, confidence := 0.70,
                  model_used := "fallback" } ∧
    calculate_fallback_score 30 5 75 = 50 + 15 + 15 + 15 := by
  constructor
  · have hscore : predict_availability none none sampleDonor = Except.ok 95 := by
      rw [predict_availability_no_model none sampleDonor
        (extract_features sampleDonor
          (calculate_days_since_last_donation sampleDonor.lastDonationDate)) rfl]
      rw [show calculate_fallback_score sampleDonor.age sampleDonor.donationFrequency
        (calculate_days_since_last_donation sampleDonor.lastDonationDate) = 95 from by decide]
      rw [round2_intCast]
      norm_num
    unfold predict_endpoint
    rw [hscore]
    rfl
  · decide

/-- C8: whenever `predict_availability` returns a score (on either the
trained-model path or the heuristic path), that score lies in [0, 100]
and equals the chosen path score rounded to two decimal places. -/
theorem availability_score_clamped_rounded (model : Option Model)
    (scaler : Option Scaler) (d : DonorRecord) (q : ℚ)
    (h : predict_availability model scaler d = Except.ok q) :
    0 ≤ q ∧ q ≤ 100 ∧
    ∃ features,
      apply_scaler scaler (extract_features d
        (calculate_days_since_last_donation d.lastDonationDate)) =
          Except.ok features ∧
      q = round2 (choose_score model features d.age d.donationFrequency
        (calculate_days_since_last_donation d.lastDonationDate)) := by
  cases hsc : apply_scaler scaler (extract_features d
      (calculate_days_since_last_donation d.lastDonationDate)) with
  | error e =>
    unfold predict_availability at h
    rw [hsc] at h
    simp at h
  | ok features =>
    unfold predict_availability at h
    rw [hsc] at h
    simp only [Except.ok.injEq] at h
    subst h
    have hb := choose_score_bounds model features d.age d.donationFrequency
      (calculate_days_since_last_donation d.lastDonationDate)
    exact ⟨round2_nonneg hb.1, round2_le_hundred hb.2, features, rfl, rfl⟩

/-- Witness for C8 at the sample record with no model and no scaler. -/
theorem availability_score_clamped_rounded_witness :
    0 ≤ (95 : ℚ) ∧ (95 : ℚ) ≤ 100 ∧
    ∃ features,
      apply_scaler none (extract_features sampleDonor
        (calculate_days_since_last_donation sampleDonor.lastDonationDate)) =
          Except.ok features ∧
      (95 : ℚ) = round2 (choose_score none features sampleDonor.age
        sampleDonor.donationFrequency
        (calculate_days_since_last_donation sampleDonor.lastDonationDate)) :=
  availability_score_clamped_rounded none none sampleDonor 95 (by
    rw [predict_availability_no_model none sampleDonor
      (extract_features sampleDonor
        (calculate_days_since_last_donation sampleDonor.lastDonationDate)) rfl]
    rw [show calculate_fallback_score sampleDonor.age sampleDonor.donationFrequency
      (calculate_days_since_last_donation sampleDonor.lastDonationDate) = 95 from by decide]
    rw [round2_intCast]
    norm_num)

/-- C1 counterexample: with a loaded model whose `predict` raises, the
sample record is scored by the heuristic (score 95), yet the response
reports `model_used = "trained"` and `confidence = 0.85`, not
"fallback" and 0.70 as the claim states. -/
theorem trained_label_despite_fallback_cex :
    predict_endpoint (some failingModel) none sampleDonor =
      Except.ok { success := true, availabilityScore := 95, confidence := 0.85,
                  model_used := "trained" } ∧
    calculate_fallback_score 30 5 75 = 95 ∧
    (0.85 : ℚ) ≠ 0.70 ∧ "trained" ≠ "fallback" := by
  refine ⟨?_, by decide, by norm_num, by decide⟩
  have hscore : predict_availability (some failingModel) none sampleDonor =
      Except.ok 95 := by
    unfold predict_availability
    rw [show apply_scaler none (extract_features sampleDonor
      (calculate_days_since_last_donation sampleDonor.lastDonationDate)) =
        Except.ok (extract_features sampleDonor
          (calculate_days_since_last_donation sampleDonor.lastDonationDate)) from rfl]
    show Except.ok (round2 (choose_score (some failingModel) _ _ _ _)) = _
    rw [choose_score_some_error failingModel _ _ _ _ rfl]
    rw [show calculate_fallback_score sampleDonor.age sampleDonor.donationFrequency
      (calculate_days_since_last_donation sampleDonor.lastDonationDate) = 95 from by decide]
    rw [round2_intCast]
    norm_num
  unfold predict_endpoint
  rw [hscore]
  rfl

/-- C1 amended: when a model is loaded but its `predict` call fails, the
heuristic fallback produces the score, yet the response reports
`model_used = "trained"` and `confidence = 0.85`: the two fields record
whether a model object is loaded, not which scoring path executed. -/
theorem trained_label_despite_fallback (m : Model) (d : DonorRecord)
    (hm : m.predict (extract_features d
      (calculate_days_since_last_donation d.lastDonationDate)) = Except.error ()) :
    predict_endpoint (some m) none d =
      Except.ok { success := true,
                  availabilityScore := round2 ((calculate_fallback_score d.age
                    d.donationFrequency
                    (calculate_days_since_last_donation d.lastDonationDate) : Int) : ℚ),
                  confidence := 0.85, model_used := "trained" } := by
  have hscore : predict_availability (some m) none d =
      Except.ok (round2 ((calculate_fallback_score d.age d.donationFrequency
        (calculate_days_since_last_donation d.lastDonationDate) : Int) : ℚ)) := by
    unfold predict_availability
    rw [show apply_scaler none (extract_features d
      (calculate_days_since_last_donation d.lastDonationDate)) =
        Except.ok (extract_features d
          (calculate_days_since_last_donation d.lastDonationDate)) from rfl]
    show Except.ok (round2 (choose_score (some m) _ _ _ _)) = _
    rw [choose_score_some_error m _ _ _ _ hm]
  unfold predict_endpoint
  rw [hscore]
  rfl

/-- Witness for C1 amended: the always-failing model on the sample
record. -/
theorem trained_label_despite_fallback_witness :
    predict_endpoint (some failingModel) none sampleDonor =
      Except.ok { success := true,
                  availabilityScore := round2 ((calculate_fallback_score
                    sampleDonor.age sampleDonor.donationFrequency
                    (calculate_days_since_last_donation
                      sampleDonor.lastDonationDate) : Int) : ℚ),
                  confidence := 0.85, model_used := "trained" } :=
  trained_label_despite_fallback failingModel sampleDonor rfl

/-- C2 counterexample: a scaler whose `transform` raises makes the
exception escape `predict_availability` (here with a model loaded whose
`predict` would succeed): the scaling step sits outside the `try`, so it
is not caught and no heuristic fallback happens. -/
theorem transform_error_escapes_cex :
    predict_availability (some constModel) (some failingScaler) sampleDonor =
      Except.error () := rfl

/-- C2 amended: a failure of the model's `predict` call is caught inside
the scoring path and yields the rounded heuristic fallback score, but
only when the scaler step did not itself raise (the scaler's `transform`
runs outside the `try`, so its errors propagate to the endpoint's
catch-all handler instead of triggering the fallback). -/
theorem model_predict_failure_caught (m : Model) (scaler : Option Scaler)
    (d : DonorRecord) (features : List ℚ)
    (hsc : apply_scaler scaler (extract_features d
      (calculate_days_since_last_donation d.lastDonationDate)) =
        Except.ok features)
    (hm : m.predict features = Except.error ()) :
    predict_availability (some m) scaler d =
      Except.ok (round2 ((calculate_fallback_score d.age d.donationFrequency
        (calculate_days_since_last_donation d.lastDonationDate) : Int) : ℚ)) := by
  unfold predict_availability
  rw [hsc]
  show Except.ok (round2 (choose_score (some m) _ _ _ _)) = _
  rw [choose_score_some_error m _ _ _ _ hm]

/-- Witness for C2 amended: the always-failing model with no scaler on
the sample record. -/
theorem model_predict_failure_caught_witness :
    predict_availability (some failingModel) none sampleDonor =
      Except.ok (round2 ((calculate_fallback_score sampleDonor.age
        sampleDonor.donationFrequency
        (calculate_days_since_last_donation sampleDonor.lastDonationDate) : Int) : ℚ)) :=
  model_predict_failure_caught failingModel none sampleDonor
    (extract_features sampleDonor
      (calculate_days_since_last_donation sampleDonor.lastDonationDate)) rfl rfl

end ThalAI

